import Mathlib

/-!
Shallow embedding of the authentication module of the multilingual mandi
repository (backend auth service, token middleware, zod registration schema,
and the phone clause of the client registration form), together with proofs
of the specified properties.

External collaborators are modelled explicitly:
* the persistence layer (an ORM over a users table) becomes a list of rows
  plus a trace of write operations performed by a call;
* the password-hashing library becomes a deterministic hash whose comparison
  accepts exactly the hashed password (salting is irrelevant to every
  property proved here);
* signed web tokens become an inductive of payload, signing secret and an
  expiry flag; verification succeeds exactly when the secret matches and the
  token is not expired, mirroring a verify call that otherwise throws.
-/

/-- Environment variables read by the auth code. `none` models an unset
variable; the empty string is falsy in the source language. -/
structure Env where
  jwtSecret : Option String
  jwtRefreshSecret : Option String
  nodeEnv : Option String
deriving Repr, DecidableEq

/-- JavaScript truthiness test for an environment variable: `!process.env.X`
is true when the variable is unset or empty. -/
def envFalsy : Option String → Bool
  | none => true
  | some s => s == ""

/-- Models the source idiom `process.env.X || defaultValue`. -/
def envOr (v : Option String) (d : String) : String :=
  match v with
  | none => d
  | some s => if s == "" then d else s

/-- Models JavaScript `String.prototype.trim`: removes whitespace from both
ends of the string (and only from the ends). -/
def jsTrim (s : String) : String :=
  ⟨((s.toList.dropWhile Char.isWhitespace).reverse.dropWhile Char.isWhitespace).reverse⟩

/-- Character class of the local part of the zod email pattern:
alphanumerics, underscore, plus, minus, dot and apostrophe (code point 39). -/
def isEmailLocalChar (c : Char) : Bool :=
  c.isAlphanum || c == '_' || c == '+' || c == '-' || c == '.' || c == Char.ofNat 39

/-- Characters on which the local part of the zod email pattern may end
(the final character may not be a dot or an apostrophe). -/
def isEmailLocalEndChar (c : Char) : Bool :=
  c.isAlphanum || c == '_' || c == '+' || c == '-'

/-- Detects two consecutive dots, forbidden in the local part. -/
def hasDoubleDot : List Char → Bool
  | [] => false
  | [_] => false
  | a :: b :: rest => (a == '.' && b == '.') || hasDoubleDot (b :: rest)

/-- Splits a character list on a separator character; always nonempty. -/
def splitOnChar (sep : Char) : List Char → List (List Char)
  | [] => [[]]
  | c :: rest =>
    let r := splitOnChar sep rest
    if c == sep then [] :: r
    else
      match r with
      | [] => [[c]]
      | h :: t => (c :: h) :: t

/-- Local part of an email address: nonempty, drawn from the local character
class, not starting with a dot, no double dot, ending in a non-dot class. -/
def localPartOk (cs : List Char) : Bool :=
  match cs with
  | [] => false
  | c :: _ =>
    cs.all isEmailLocalChar && !(c == '.') && !hasDoubleDot cs &&
      (match cs.getLast? with
       | some l => isEmailLocalEndChar l
       | none => false)

/-- Domain label: an alphanumeric followed by alphanumerics or hyphens. -/
def labelOk (cs : List Char) : Bool :=
  match cs with
  | [] => false
  | c :: rest => c.isAlphanum && rest.all (fun d => d.isAlphanum || d == '-')

/-- Top-level domain: at least two letters. -/
def tldOk (cs : List Char) : Bool :=
  decide (2 ≤ cs.length) && cs.all Char.isAlpha

/-- Domain of an email address: one or more labels, a dot, then a TLD. -/
def domainOk (cs : List Char) : Bool :=
  match (splitOnChar '.' cs).reverse with
  | [] => false
  | tld :: labels => !labels.isEmpty && tldOk tld && labels.all labelOk

/-- Models the zod string email validator used by the registration schema:
exactly one at-sign separating a valid local part from a valid domain. -/
def zodEmailOk (s : String) : Bool :=
  match splitOnChar '@' s.toList with
  | [l, d] => localPartOk l && domainOk d
  | _ => false

/-- Registration input. The user type arrives as a raw string and is checked
by the schema against the VENDOR and BUYER enumeration. -/
structure UserRegistrationData where
  email : String
  password : String
  name : String
  preferredLanguage : String
  userType : String
  phoneNumber : Option String
deriving Repr, DecidableEq

/-- Issue messages produced by `UserRegistrationSchema.safeParse`, in field
order: email format, password length at least 8, name length at least 2,
language code length at least 2, user type in the enumeration. The
phoneNumber field is an unconstrained optional string, so it contributes no
issue. The enum issue message is abstracted to its configured text. -/
def registrationIssues (u : UserRegistrationData) : List String :=
  (if zodEmailOk u.email then [] else ["Invalid email format"]) ++
  (if 8 ≤ u.password.length then [] else ["Password must be at least 8 characters"]) ++
  (if 2 ≤ u.name.length then [] else ["Name must be at least 2 characters"]) ++
  (if 2 ≤ u.preferredLanguage.length then [] else ["Language code must be at least 2 characters"]) ++
  (if u.userType == "VENDOR" || u.userType == "BUYER" then [] else ["User type is required"])

/-- Login input. -/
structure LoginCredentials where
  email : String
  password : String
deriving Repr, DecidableEq

/-- A persisted row of the users table. -/
structure DbUser where
  id : String
  email : String
  passwordHash : String
  name : String
  userType : String
  preferredLanguage : String
  phoneNumber : Option String
deriving Repr, DecidableEq

/-- A write operation issued to the persistence collaborator. -/
inductive DbWrite where
  | create (u : DbUser)
  | update (id : String) (preferredLanguage : String)
deriving Repr, DecidableEq

/-- Models `prisma.user.findUnique` keyed by email. -/
def findUniqueByEmail (db : List DbUser) (email : String) : Option DbUser :=
  db.find? (fun u => u.email == email)

/-- Models `prisma.user.findUnique` keyed by id. -/
def findUniqueById (db : List DbUser) (id : String) : Option DbUser :=
  db.find? (fun u => u.id == id)

/-- Model of the external password-hashing collaborator: deterministic, with
the work factor of the source baked into the tag. -/
def bcryptHash (password : String) : String :=
  "bcrypt-12-" ++ password

/-- Model of the hash comparison: accepts exactly the hashed password. -/
def bcryptCompare (password hash : String) : Bool :=
  hash == bcryptHash password

/-- Payload carried by a signed token: userId, email, and an optional type
marker (set to refresh on refresh tokens, absent on access tokens). -/
structure JwtPayload where
  userId : String
  email : String
  type : Option String
deriving Repr, DecidableEq

/-- A token value: either signed with some secret (with an expiry flag
abstracting real time), or malformed. -/
inductive Token where
  | signed (payload : JwtPayload) (secret : String) (expired : Bool)
  | malformed (raw : String)
deriving Repr, DecidableEq

/-- Models `jwt.verify`: yields the payload exactly when the token was signed
with the given secret and has not expired; the sources catch the thrown
error, so failure is `none` here. -/
def jwtVerify (t : Token) (secret : String) : Option JwtPayload :=
  match t with
  | .signed p s expired => if s == secret && !expired then some p else none
  | .malformed _ => none

/-- The sanitized user shape returned to clients: exactly id, email, name,
userType and preferredLanguage (the shape selected by every success path). -/
structure AuthUser where
  id : String
  email : String
  name : String
  userType : String
  preferredLanguage : String
deriving Repr, DecidableEq

/-- Outcome of an auth operation, mirroring the AuthResult interface. -/
structure AuthResult where
  success : Bool
  user : Option AuthUser := none
  token : Option Token := none
  refreshToken : Option Token := none
  error : Option String := none
deriving Repr, DecidableEq

/-- Projection of a persisted row to the client-visible user: drops the
password hash and the phone number. -/
def publicUser (u : DbUser) : AuthUser :=
  { id := u.id, email := u.email, name := u.name, userType := u.userType,
    preferredLanguage := u.preferredLanguage }

/-- The guard used by register and login before signing tokens: a signing
secret is unset or empty while NODE_ENV equals production. -/
def missingSecretProd (env : Env) : Bool :=
  (envFalsy env.jwtSecret || envFalsy env.jwtRefreshSecret) && env.nodeEnv == some "production"

/-- The input passes every validation gate of register: the schema parse
succeeds and the two additional trimmed-length checks pass. -/
def registrationValid (u : UserRegistrationData) : Prop :=
  registrationIssues u = [] ∧ ¬ (jsTrim u.password).length < 8 ∧ ¬ (jsTrim u.name).length < 2

instance (u : UserRegistrationData) : Decidable (registrationValid u) := by
  unfold registrationValid
  infer_instance

namespace AuthService

/-- Models `AuthService.register`. Returns the result together with the list
of write operations issued to the persistence collaborator, in order. The
fresh id assigned by the store at creation is passed as a parameter. -/
def register (env : Env) (db : List DbUser) (newId : String)
    (userData : UserRegistrationData) : AuthResult × List DbWrite :=
  if registrationIssues userData ≠ [] then
    ({ success := false,
       error := some ("Invalid registration data: " ++
         String.intercalate ", " (registrationIssues userData)) }, [])
  else if (jsTrim userData.password).length < 8 then
    ({ success := false,
       error := some "Password must contain at least 8 non-whitespace characters" }, [])
  else if (jsTrim userData.name).length < 2 then
    ({ success := false,
       error := some "Name must contain at least 2 non-whitespace characters" }, [])
  else
    match findUniqueByEmail db userData.email with
    | some _ => ({ success := false, error := some "User with this email already exists" }, [])
    | none =>
      let createdUser : DbUser :=
        { id := newId, email := userData.email,
          passwordHash := bcryptHash userData.password,
          name := userData.name, userType := userData.userType,
          preferredLanguage := userData.preferredLanguage,
          phoneNumber := userData.phoneNumber }
      if missingSecretProd env then
        ({ success := false, error := some "Server configuration error" },
         [DbWrite.create createdUser])
      else
        ({ success := true,
           user := some (publicUser createdUser),
           token := some (Token.signed
             { userId := newId, email := userData.email, type := none }
             (envOr env.jwtSecret "test-secret-key-for-development") false),
           refreshToken := some (Token.signed
             { userId := newId, email := userData.email, type := some "refresh" }
             (envOr env.jwtRefreshSecret "test-refresh-secret-key-for-development") false) },
         [DbWrite.create createdUser])

/-- Models `AuthService.login`: stateless, so no write trace. -/
def login (env : Env) (db : List DbUser) (credentials : LoginCredentials) : AuthResult :=
  match findUniqueByEmail db credentials.email with
  | none => { success := false, error := some "Invalid email or password" }
  | some user =>
    if !bcryptCompare credentials.password user.passwordHash then
      { success := false, error := some "Invalid email or password" }
    else if missingSecretProd env then
      { success := false, error := some "Server configuration error" }
    else
      { success := true,
        user := some (publicUser user),
        token := some (Token.signed
          { userId := user.id, email := user.email, type := none }
          (envOr env.jwtSecret "test-secret-key-for-development") false),
        refreshToken := some (Token.signed
          { userId := user.id, email := user.email, type := some "refresh" }
          (envOr env.jwtRefreshSecret "test-refresh-secret-key-for-development") false) }

/-- Models `AuthService.refreshToken`: verifies against the refresh secret
(falling back to the development default without any production check),
rejects payloads whose type marker is not refresh, re-fetches the user, and
issues a new access token only. -/
def refreshToken (env : Env) (db : List DbUser) (token : Token) : AuthResult :=
  match jwtVerify token (envOr env.jwtRefreshSecret "test-refresh-secret-key-for-development") with
  | none => { success := false, error := some "Invalid or expired refresh token" }
  | some decoded =>
    if decoded.type ≠ some "refresh" then
      { success := false, error := some "Invalid refresh token" }
    else
      match findUniqueById db decoded.userId with
      | none => { success := false, error := some "User not found" }
      | some user =>
        { success := true,
          user := some (publicUser user),
          token := some (Token.signed
            { userId := user.id, email := user.email, type := none }
            (envOr env.jwtSecret "test-secret-key-for-development") false),
          refreshToken := none }

/-- Models `AuthService.setLanguagePreference`: a single update write. -/
def setLanguagePreference (userId : String) (language : String) : List DbWrite :=
  [DbWrite.update userId language]

end AuthService

/-- Outcome of the token-verification middleware. -/
inductive MiddlewareOutcome where
  | reject (status : Nat) (error : String)
  | authed (userId : String) (email : String)
deriving Repr, DecidableEq

/-- Models the `authenticateToken` middleware. Bearer-header parsing is
abstracted to an optional token; the secret falls back to the development
default with no production check. -/
def authenticateToken (env : Env) (bearerToken : Option Token) : MiddlewareOutcome :=
  match bearerToken with
  | none => .reject 401 "Access token required"
  | some t =>
    match jwtVerify t (envOr env.jwtSecret "test-secret-key-for-development") with
    | none => .reject 403 "Invalid or expired token"
    | some decoded => .authed decoded.userId decoded.email

/-- Models the digit stripping `replace` of all non-digit characters used by
the client registration form. -/
def stripNonDigits (s : String) : String :=
  ⟨s.toList.filter Char.isDigit⟩

/-- Models the phoneNumber clause of validateForm in RegisterForm.tsx: a
truthy (nonempty) phone number whose digit-stripped form is not exactly ten
digits is flagged. -/
def registerFormPhoneError (phoneNumber : String) : Option String :=
  if phoneNumber ≠ "" ∧ (stripNonDigits phoneNumber).length ≠ 10 then
    some "Please enter a valid 10-digit phone number"
  else none

/-- Modelled from the spec: the count of non-whitespace characters of a
string, wherever they occur — the reading of the password rule stated by the
spec and by the error message of the code itself. -/
def specNonWhitespaceCount (s : String) : Nat :=
  (s.toList.filter (fun c => !c.isWhitespace)).length

/-! Concrete fixtures used by witnesses and counterexamples. -/

/-- A well-configured environment: both secrets set, not production. -/
def goodEnv : Env :=
  { jwtSecret := some "s3cret", jwtRefreshSecret := some "r3fresh", nodeEnv := some "test" }

/-- A production environment with both signing secrets unset. -/
def prodEnv : Env :=
  { jwtSecret := none, jwtRefreshSecret := none, nodeEnv := some "production" }

/-- The registration example given by the spec. -/
def annInput : UserRegistrationData :=
  { email := "a@test.io", password := "password123", name := "Ann",
    preferredLanguage := "hi", userType := "BUYER", phoneNumber := none }

/-- The row that registering annInput under the fresh id user-1 persists. -/
def annRow : DbUser :=
  { id := "user-1", email := "a@test.io", passwordHash := bcryptHash "password123",
    name := "Ann", userType := "BUYER", preferredLanguage := "hi", phoneNumber := none }

/-- A store already holding the row for annInput. -/
def dbAnn : List DbUser := [annRow]

/-- annInput with a five-character password. -/
def shortPwInput : UserRegistrationData := { annInput with password := "short" }

/-- annInput with an eight-character password holding only six non-whitespace
characters, none of them leading or trailing. -/
def sparsePwInput : UserRegistrationData := { annInput with password := "ab cd ef" }

/-- annInput with a phone number that has no digits at all. -/
def badPhoneInput : UserRegistrationData := { annInput with phoneNumber := some "abc" }

/-- A token signed with the development default refresh secret, carrying the
refresh type marker for the persisted user. -/
def devRefreshTok : Token :=
  Token.signed { userId := "user-1", email := "a@test.io", type := some "refresh" }
    "test-refresh-secret-key-for-development" false

/-! Helper lemmas. -/

/-- A falsy environment variable makes the fallback idiom yield the default. -/
theorem envOr_of_falsy (v : Option String) (d : String) (h : envFalsy v = true) :
    envOr v d = d := by
  cases v with
  | none => rfl
  | some s =>
    simp only [envFalsy] at h
    simp [envOr, h]

/-- A password of raw length under eight makes the schema parse fail. -/
theorem registrationIssues_ne_nil_of_short_password (u : UserRegistrationData)
    (h : u.password.length < 8) : registrationIssues u ≠ [] := by
  unfold registrationIssues
  have h8 : ¬ 8 ≤ u.password.length := by omega
  rw [if_neg h8]
  simp

/-! Claim theorems. -/

/-- C6: a registration input whose password is shorter than eight characters
is rejected and issues no write to the persistence collaborator. -/
theorem short_password_no_write (env : Env) (db : List DbUser) (newId : String)
    (u : UserRegistrationData) (h : u.password.length < 8) :
    ((AuthService.register env db newId u).1).success = false ∧
    (AuthService.register env db newId u).2 = [] := by
  have hi := registrationIssues_ne_nil_of_short_password u h
  unfold AuthService.register
  rw [if_pos hi]
  exact ⟨rfl, rfl⟩

/-- Witness for C6 at the concrete five-character password. -/
theorem short_password_no_write_witness :
    "short".length < 8 ∧
    ((AuthService.register goodEnv [] "user-1" shortPwInput).1).success = false ∧
    (AuthService.register goodEnv [] "user-1" shortPwInput).2 = [] :=
  ⟨by decide, short_password_no_write goodEnv [] "user-1" shortPwInput (by decide)⟩

/-- C5: the code does not implement the non-whitespace count its own error
message announces — a password with only six non-whitespace characters (but
eight characters, none of them leading or trailing whitespace) is accepted
and registration succeeds. -/
theorem register_accepts_sparse_password :
    specNonWhitespaceCount sparsePwInput.password < 8 ∧
    ((AuthService.register goodEnv [] "user-1" sparsePwInput).1).success = true := by
  decide

/-- C2: a login for an unknown email and a login for a known email with a
password that does not match the stored hash return the same failure result,
carrying the identical message. -/
theorem login_indistinguishable_errors (env1 env2 : Env) (db : List DbUser)
    (c1 c2 : LoginCredentials) (u : DbUser)
    (h1 : findUniqueByEmail db c1.email = none)
    (h2 : findUniqueByEmail db c2.email = some u)
    (h3 : bcryptCompare c2.password u.passwordHash = false) :
    AuthService.login env1 db c1 =
      { success := false, error := some "Invalid email or password" } ∧
    AuthService.login env2 db c2 =
      { success := false, error := some "Invalid email or password" } := by
  constructor
  · unfold AuthService.login
    rw [h1]
  · unfold AuthService.login
    rw [h2]
    simp [h3]

/-- Witness for C2: a ghost email and a wrong password against the stored row. -/
theorem login_indistinguishable_errors_witness :
    AuthService.login goodEnv dbAnn { email := "ghost@test.io", password := "password123" } =
      { success := false, error := some "Invalid email or password" } ∧
    AuthService.login goodEnv dbAnn { email := "a@test.io", password := "wrong" } =
      { success := false, error := some "Invalid email or password" } :=
  login_indistinguishable_errors goodEnv goodEnv dbAnn
    { email := "ghost@test.io", password := "password123" }
    { email := "a@test.io", password := "wrong" } annRow
    (by decide) (by decide) (by decide)

/-- C1 fails as stated: in a production deployment with the signing secrets
unset, a validated registration whose email is not persisted still returns a
failure, not a success result. -/
theorem register_valid_prod_counterexample :
    registrationValid annInput ∧
    findUniqueByEmail [] annInput.email = none ∧
    ((AuthService.register prodEnv [] "user-1" annInput).1).success = false := by
  decide

/-- C1 (amended): for every registration input that passes validation and
whose email is not persisted, provided the deployment is not a production
context with a missing signing secret, register succeeds, echoes the
submitted preferredLanguage, userType, email and name (under the fresh id),
and returns both an access and a refresh token. -/
theorem register_valid_success (env : Env) (db : List DbUser) (newId : String)
    (u : UserRegistrationData) (hv : registrationValid u)
    (hdup : findUniqueByEmail db u.email = none)
    (hcfg : missingSecretProd env = false) :
    ((AuthService.register env db newId u).1).success = true ∧
    ((AuthService.register env db newId u).1).user =
      some { id := newId, email := u.email, name := u.name,
             userType := u.userType, preferredLanguage := u.preferredLanguage } ∧
    (((AuthService.register env db newId u).1).token).isSome = true ∧
    (((AuthService.register env db newId u).1).refreshToken).isSome = true := by
  obtain ⟨h1, h2, h3⟩ := hv
  unfold AuthService.register
  rw [if_neg (not_not_intro h1), if_neg h2, if_neg h3, hdup, if_neg (by simp [hcfg])]
  exact ⟨rfl, rfl, rfl, rfl⟩

/-- Witness for the amended C1 at the spec example input. -/
theorem register_valid_success_witness :
    ((AuthService.register goodEnv [] "user-1" annInput).1).success = true ∧
    ((AuthService.register goodEnv [] "user-1" annInput).1).user =
      some { id := "user-1", email := annInput.email, name := annInput.name,
             userType := annInput.userType, preferredLanguage := annInput.preferredLanguage } ∧
    (((AuthService.register goodEnv [] "user-1" annInput).1).token).isSome = true ∧
    (((AuthService.register goodEnv [] "user-1" annInput).1).refreshToken).isSome = true :=
  register_valid_success goodEnv [] "user-1" annInput (by decide) (by decide) (by decide)

/-- C10: in a production deployment with a signing secret unset, a validated
non-duplicate registration persists the new row via a create write and still
reports the configuration failure — the failure is not atomic. -/
theorem register_config_failure_after_create (env : Env) (db : List DbUser)
    (newId : String) (u : UserRegistrationData) (hv : registrationValid u)
    (hdup : findUniqueByEmail db u.email = none)
    (hcfg : missingSecretProd env = true) :
    (AuthService.register env db newId u).1 =
      { success := false, error := some "Server configuration error" } ∧
    (AuthService.register env db newId u).2 =
      [DbWrite.create
        { id := newId, email := u.email, passwordHash := bcryptHash u.password,
          name := u.name, userType := u.userType,
          preferredLanguage := u.preferredLanguage, phoneNumber := u.phoneNumber }] := by
  obtain ⟨h1, h2, h3⟩ := hv
  unfold AuthService.register
  rw [if_neg (not_not_intro h1), if_neg h2, if_neg h3, hdup, if_pos (by simp [hcfg])]
  exact ⟨rfl, rfl⟩

/-- Witness for C10 at the spec example input in the misconfigured
production environment. -/
theorem register_config_failure_after_create_witness :
    (AuthService.register prodEnv [] "user-1" annInput).1 =
      { success := false, error := some "Server configuration error" } ∧
    (AuthService.register prodEnv [] "user-1" annInput).2 =
      [DbWrite.create
        { id := "user-1", email := annInput.email,
          passwordHash := bcryptHash annInput.password,
          name := annInput.name, userType := annInput.userType,
          preferredLanguage := annInput.preferredLanguage,
          phoneNumber := annInput.phoneNumber }] :=
  register_config_failure_after_create prodEnv [] "user-1" annInput
    (by decide) (by decide) (by decide)

/-- C7 fails as stated: a duplicate-email registration that also fails
validation reports the validation message, not the duplicate-email error
(the duplicate row is never even looked up). -/
theorem duplicate_email_validation_error_first :
    findUniqueByEmail dbAnn shortPwInput.email = some annRow ∧
    ((AuthService.register goodEnv dbAnn "user-2" shortPwInput).1).success = false ∧
    ((AuthService.register goodEnv dbAnn "user-2" shortPwInput).1).error ≠
      some "User with this email already exists" := by
  decide

/-- C7 (amended): every registration whose email is already persisted fails
and issues no create write; when the input additionally passes validation,
the failure carries the duplicate-email error. -/
theorem duplicate_email_no_create (env : Env) (db : List DbUser) (newId : String)
    (u : UserRegistrationData) (ex : DbUser)
    (hdup : findUniqueByEmail db u.email = some ex) :
    ((AuthService.register env db newId u).1).success = false ∧
    (AuthService.register env db newId u).2 = [] ∧
    (registrationValid u →
      ((AuthService.register env db newId u).1).error =
        some "User with this email already exists") := by
  unfold AuthService.register
  by_cases h1 : registrationIssues u = []
  · rw [if_neg (not_not_intro h1)]
    by_cases h2 : (jsTrim u.password).length < 8
    · rw [if_pos h2]
      exact ⟨rfl, rfl, fun hv => absurd h2 hv.2.1⟩
    · rw [if_neg h2]
      by_cases h3 : (jsTrim u.name).length < 2
      · rw [if_pos h3]
        exact ⟨rfl, rfl, fun hv => absurd h3 hv.2.2⟩
      · rw [if_neg h3, hdup]
        exact ⟨rfl, rfl, fun _ => rfl⟩
  · rw [if_pos h1]
    exact ⟨rfl, rfl, fun hv => absurd hv.1 h1⟩

/-- C3 fails as stated: in a production deployment with both signing secrets
unset, token refresh does not fail closed — it verifies the token against
the development default refresh secret and succeeds. -/
theorem refresh_uses_default_secret_in_prod :
    prodEnv.nodeEnv = some "production" ∧
    prodEnv.jwtRefreshSecret = none ∧
    (AuthService.refreshToken prodEnv dbAnn devRefreshTok).success = true := by
  decide

/-- C3 (amended): with a signing secret unset in a production context,
register and login fail closed with the configuration error, but token
refresh and the verification middleware instead fall back to the
development default secret: a token signed with that default verifies. -/
theorem secret_fallback_split_behavior :
    (∀ (env : Env) (db : List DbUser) (newId : String) (u : UserRegistrationData),
      missingSecretProd env = true → registrationValid u →
      findUniqueByEmail db u.email = none →
      (AuthService.register env db newId u).1 =
        { success := false, error := some "Server configuration error" }) ∧
    (∀ (env : Env) (db : List DbUser) (c : LoginCredentials) (du : DbUser),
      missingSecretProd env = true → findUniqueByEmail db c.email = some du →
      bcryptCompare c.password du.passwordHash = true →
      AuthService.login env db c =
        { success := false, error := some "Server configuration error" }) ∧
    (∀ (env : Env) (db : List DbUser) (p : JwtPayload) (du : DbUser),
      envFalsy env.jwtRefreshSecret = true → p.type = some "refresh" →
      findUniqueById db p.userId = some du →
      (AuthService.refreshToken env db
        (Token.signed p "test-refresh-secret-key-for-development" false)).success = true) ∧
    (∀ (env : Env) (p : JwtPayload),
      envFalsy env.jwtSecret = true →
      authenticateToken env
        (some (Token.signed p "test-secret-key-for-development" false)) =
        .authed p.userId p.email) := by
  refine ⟨?_, ?_, ?_, ?_⟩
  · intro env db newId u hcfg hv hdup
    obtain ⟨h1, h2, h3⟩ := hv
    unfold AuthService.register
    rw [if_neg (not_not_intro h1), if_neg h2, if_neg h3, hdup, if_pos (by simp [hcfg])]
  · intro env db c du hcfg hfind hcmp
    unfold AuthService.login
    rw [hfind]
    simp [hcmp, hcfg]
  · intro env db p du hfalsy hty hfind
    have hd := envOr_of_falsy env.jwtRefreshSecret
      "test-refresh-secret-key-for-development" hfalsy
    unfold AuthService.refreshToken
    rw [hd]
    simp [jwtVerify, hty, hfind]
  · intro env p hfalsy
    have hd := envOr_of_falsy env.jwtSecret "test-secret-key-for-development" hfalsy
    unfold authenticateToken
    rw [hd]
    simp [jwtVerify]

/-- Witness for the amended C3: the four behaviors at concrete inputs in the
misconfigured production environment. -/
theorem secret_fallback_split_behavior_witness :
    (AuthService.register prodEnv [] "user-1" annInput).1 =
      { success := false, error := some "Server configuration error" } ∧
    AuthService.login prodEnv dbAnn { email := "a@test.io", password := "password123" } =
      { success := false, error := some "Server configuration error" } ∧
    (AuthService.refreshToken prodEnv dbAnn
      (Token.signed { userId := "user-1", email := "a@test.io", type := some "refresh" }
        "test-refresh-secret-key-for-development" false)).success = true ∧
    authenticateToken prodEnv
      (some (Token.signed { userId := "user-1", email := "a@test.io", type := none }
        "test-secret-key-for-development" false)) =
      .authed "user-1" "a@test.io" :=
  ⟨secret_fallback_split_behavior.1 prodEnv [] "user-1" annInput
      (by decide) (by decide) (by decide),
   secret_fallback_split_behavior.2.1 prodEnv dbAnn
      { email := "a@test.io", password := "password123" } annRow
      (by decide) (by decide) (by decide),
   secret_fallback_split_behavior.2.2.1 prodEnv dbAnn
      { userId := "user-1", email := "a@test.io", type := some "refresh" } annRow
      (by decide) (by decide) (by decide),
   secret_fallback_split_behavior.2.2.2 prodEnv
      { userId := "user-1", email := "a@test.io", type := none } (by decide)⟩

/-- C4 fails as stated: a present phone number whose digit-stripped form is
not ten digits does not make registration fail — the backend schema applies
no phone validation and register succeeds. -/
theorem register_accepts_bad_phone :
    badPhoneInput.phoneNumber = some "abc" ∧
    (stripNonDigits "abc").length ≠ 10 ∧
    ((AuthService.register goodEnv [] "user-1" badPhoneInput).1).success = true := by
  decide

/-- C4 (amended): register applies no validation to the phone number — its
outcome is unchanged under any replacement of the phoneNumber field — and
the ten-digits-after-stripping rule is enforced only by the client
registration form, which accepts exactly an absent (empty) phone number or
one whose digit-stripped form has length ten. -/
theorem phone_validation_amended :
    (∀ (env : Env) (db : List DbUser) (newId : String) (u : UserRegistrationData)
        (ph : Option String),
      ((AuthService.register env db newId { u with phoneNumber := ph }).1).success =
        ((AuthService.register env db newId u).1).success) ∧
    (∀ ph : String,
      registerFormPhoneError ph = none ↔ (ph = "" ∨ (stripNonDigits ph).length = 10)) := by
  constructor
  · intro env db newId u ph
    have hIss : registrationIssues { u with phoneNumber := ph } = registrationIssues u := rfl
    by_cases h1 : registrationIssues u = []
    · by_cases h2 : (jsTrim u.password).length < 8
      · simp [AuthService.register, hIss, h1, h2]
      · by_cases h3 : (jsTrim u.name).length < 2
        · simp [AuthService.register, hIss, h1, h2, h3]
        · rcases hfind : findUniqueByEmail db u.email with _ | ex
          · by_cases hc : missingSecretProd env = true
            · simp [AuthService.register, hIss, h1, h2, h3, hfind, hc]
            · simp [AuthService.register, hIss, h1, h2, h3, hfind, hc]
          · simp [AuthService.register, hIss, h1, h2, h3, hfind]
    · simp [AuthService.register, hIss, h1]
  · intro ph
    unfold registerFormPhoneError
    split
    case isTrue h => simp [h.1, h.2]
    case isFalse h =>
      rw [not_and_or, not_not, not_not] at h
      simp [h]


/-- A token that fails verification outright. -/
def junkTok : Token := Token.malformed "junk"

/-- An access-shaped token (no type marker) signed with the configured
refresh secret of goodEnv. -/
def accessShapedTok : Token :=
  Token.signed { userId := "user-1", email := "a@test.io", type := none } "r3fresh" false

/-- A refresh token for a user id that is not persisted. -/
def ghostRefreshTok : Token :=
  Token.signed { userId := "ghost", email := "g@test.io", type := some "refresh" }
    "r3fresh" false

/-- A valid refresh token for the persisted user, signed with the configured
refresh secret of goodEnv. -/
def annRefreshTok : Token :=
  Token.signed { userId := "user-1", email := "a@test.io", type := some "refresh" }
    "r3fresh" false

/-- C8: refreshToken fails when verification against the refresh secret
fails (bad signature, expired, malformed), fails when the decoded type
marker is not refresh, fails when the decoded user no longer exists, and on
success returns a new access token with no refresh token (no rotation). -/
theorem refreshToken_case_analysis (env : Env) (db : List DbUser) (t : Token) :
    (jwtVerify t (envOr env.jwtRefreshSecret "test-refresh-secret-key-for-development") = none →
      AuthService.refreshToken env db t =
        { success := false, error := some "Invalid or expired refresh token" }) ∧
    (∀ p : JwtPayload,
      jwtVerify t (envOr env.jwtRefreshSecret "test-refresh-secret-key-for-development") = some p →
      (p.type ≠ some "refresh" →
        AuthService.refreshToken env db t =
          { success := false, error := some "Invalid refresh token" }) ∧
      (p.type = some "refresh" → findUniqueById db p.userId = none →
        AuthService.refreshToken env db t =
          { success := false, error := some "User not found" }) ∧
      (∀ du : DbUser, p.type = some "refresh" → findUniqueById db p.userId = some du →
        (AuthService.refreshToken env db t).success = true ∧
        (AuthService.refreshToken env db t).token =
          some (Token.signed { userId := du.id, email := du.email, type := none }
            (envOr env.jwtSecret "test-secret-key-for-development") false) ∧
        (AuthService.refreshToken env db t).refreshToken = none)) := by
  constructor
  · intro h
    unfold AuthService.refreshToken
    rw [h]
  · intro p hp
    refine ⟨?_, ?_, ?_⟩
    · intro hty
      unfold AuthService.refreshToken
      rw [hp]
      simp [hty]
    · intro hty hfind
      unfold AuthService.refreshToken
      rw [hp]
      simp [hty, hfind]
    · intro du hty hfind
      unfold AuthService.refreshToken
      rw [hp]
      simp [hty, hfind]

/-- Witness for C8: the four branches at concrete tokens. -/
theorem refreshToken_case_analysis_witness :
    AuthService.refreshToken goodEnv dbAnn junkTok =
      { success := false, error := some "Invalid or expired refresh token" } ∧
    AuthService.refreshToken goodEnv dbAnn accessShapedTok =
      { success := false, error := some "Invalid refresh token" } ∧
    AuthService.refreshToken goodEnv dbAnn ghostRefreshTok =
      { success := false, error := some "User not found" } ∧
    (AuthService.refreshToken goodEnv dbAnn annRefreshTok).success = true ∧
    (AuthService.refreshToken goodEnv dbAnn annRefreshTok).refreshToken = none :=
  ⟨(refreshToken_case_analysis goodEnv dbAnn junkTok).1 (by decide),
   ((refreshToken_case_analysis goodEnv dbAnn accessShapedTok).2
      { userId := "user-1", email := "a@test.io", type := none } (by decide)).1 (by decide),
   (((refreshToken_case_analysis goodEnv dbAnn ghostRefreshTok).2
      { userId := "ghost", email := "g@test.io", type := some "refresh" } (by decide)).2.1
      (by decide) (by decide)),
   (((refreshToken_case_analysis goodEnv dbAnn annRefreshTok).2
      { userId := "user-1", email := "a@test.io", type := some "refresh" } (by decide)).2.2
      annRow (by decide) (by decide)).1,
   (((refreshToken_case_analysis goodEnv dbAnn annRefreshTok).2
      { userId := "user-1", email := "a@test.io", type := some "refresh" } (by decide)).2.2
      annRow (by decide) (by decide)).2.2⟩

/-- C9: every success result exposes exactly the sanitized five-field user.
Register echoes the submitted fields under the fresh id; login and refresh
expose the projection of the fetched row that drops the password hash. -/
theorem auth_results_sanitized :
    (∀ (env : Env) (db : List DbUser) (newId : String) (u : UserRegistrationData),
      ((AuthService.register env db newId u).1).success = true →
      ((AuthService.register env db newId u).1).user =
        some { id := newId, email := u.email, name := u.name,
               userType := u.userType, preferredLanguage := u.preferredLanguage }) ∧
    (∀ (env : Env) (db : List DbUser) (c : LoginCredentials),
      (AuthService.login env db c).success = true →
      ∃ du : DbUser, findUniqueByEmail db c.email = some du ∧
        (AuthService.login env db c).user = some (publicUser du)) ∧
    (∀ (env : Env) (db : List DbUser) (t : Token),
      (AuthService.refreshToken env db t).success = true →
      ∃ (p : JwtPayload) (du : DbUser),
        jwtVerify t (envOr env.jwtRefreshSecret "test-refresh-secret-key-for-development") = some p ∧
        findUniqueById db p.userId = some du ∧
        (AuthService.refreshToken env db t).user = some (publicUser du)) := by
  refine ⟨?_, ?_, ?_⟩
  · intro env db newId u h
    unfold AuthService.register at h ⊢
    by_cases h1 : registrationIssues u = []
    · by_cases h2 : (jsTrim u.password).length < 8
      · rw [if_neg (not_not_intro h1), if_pos h2] at h
        simp at h
      · by_cases h3 : (jsTrim u.name).length < 2
        · rw [if_neg (not_not_intro h1), if_neg h2, if_pos h3] at h
          simp at h
        · rcases hfind : findUniqueByEmail db u.email with _ | ex
          · by_cases hc : missingSecretProd env = true
            · rw [if_neg (not_not_intro h1), if_neg h2, if_neg h3, hfind] at h
              simp [hc] at h
            · rw [if_neg (not_not_intro h1), if_neg h2, if_neg h3]
              simp [hc, publicUser]
          · rw [if_neg (not_not_intro h1), if_neg h2, if_neg h3, hfind] at h
            simp at h
    · rw [if_pos h1] at h
      simp at h
  · intro env db c h
    unfold AuthService.login at h ⊢
    rcases hfind : findUniqueByEmail db c.email with _ | du
    · rw [hfind] at h
      simp at h
    · cases hcmp : bcryptCompare c.password du.passwordHash with
      | false =>
        rw [hfind] at h
        simp [hcmp] at h
      | true =>
        by_cases hc : missingSecretProd env = true
        · rw [hfind] at h
          simp [hcmp, hc] at h
        · refine ⟨du, rfl, ?_⟩
          simp [hcmp, hc]
  · intro env db t h
    unfold AuthService.refreshToken at h ⊢
    rcases hver : jwtVerify t (envOr env.jwtRefreshSecret "test-refresh-secret-key-for-development")
      with _ | p
    · rw [hver] at h
      simp at h
    · by_cases hty : p.type = some "refresh"
      · rcases hfind : findUniqueById db p.userId with _ | du
        · rw [hver] at h
          simp [hty, hfind] at h
        · refine ⟨p, du, rfl, hfind, ?_⟩
          simp [hty, hfind]
      · rw [hver] at h
        simp [hty] at h

/-- Witness for C9: the three success paths at concrete inputs. -/
theorem auth_results_sanitized_witness :
    ((AuthService.register goodEnv [] "user-1" annInput).1).user =
      some { id := "user-1", email := annInput.email, name := annInput.name,
             userType := annInput.userType, preferredLanguage := annInput.preferredLanguage } ∧
    (∃ du : DbUser, findUniqueByEmail dbAnn "a@test.io" = some du ∧
      (AuthService.login goodEnv dbAnn
        { email := "a@test.io", password := "password123" }).user = some (publicUser du)) ∧
    (∃ (p : JwtPayload) (du : DbUser),
      jwtVerify annRefreshTok
        (envOr goodEnv.jwtRefreshSecret "test-refresh-secret-key-for-development") = some p ∧
      findUniqueById dbAnn p.userId = some du ∧
      (AuthService.refreshToken goodEnv dbAnn annRefreshTok).user = some (publicUser du)) :=
  ⟨auth_results_sanitized.1 goodEnv [] "user-1" annInput (by decide),
   auth_results_sanitized.2.1 goodEnv dbAnn
     { email := "a@test.io", password := "password123" } (by decide),
   auth_results_sanitized.2.2 goodEnv dbAnn annRefreshTok (by decide)⟩

/-- Witness for the amended C7: registering the valid spec example a second
time fails with the duplicate-email error and writes nothing. -/
theorem duplicate_email_no_create_witness :
    ((AuthService.register goodEnv dbAnn "user-2" annInput).1).success = false ∧
    (AuthService.register goodEnv dbAnn "user-2" annInput).2 = [] ∧
    ((AuthService.register goodEnv dbAnn "user-2" annInput).1).error =
      some "User with this email already exists" :=
  ⟨(duplicate_email_no_create goodEnv dbAnn "user-2" annInput annRow (by decide)).1,
   (duplicate_email_no_create goodEnv dbAnn "user-2" annInput annRow (by decide)).2.1,
   (duplicate_email_no_create goodEnv dbAnn "user-2" annInput annRow (by decide)).2.2 (by decide)⟩

/-- Witness for the amended C4: a concrete phone replacement leaves the
register outcome unchanged, and the client form accepts a formatted
ten-digit phone number. -/
theorem phone_validation_amended_witness :
    ((AuthService.register goodEnv [] "user-1"
        { annInput with phoneNumber := some "x" }).1).success =
      ((AuthService.register goodEnv [] "user-1" annInput).1).success ∧
    (registerFormPhoneError "98-765 43210" = none ↔
      ("98-765 43210" = "" ∨ (stripNonDigits "98-765 43210").length = 10)) :=
  ⟨phone_validation_amended.1 goodEnv [] "user-1" annInput (some "x"),
   phone_validation_amended.2 "98-765 43210"⟩
